import Mathlib

/-!
Verification of `cert_issuer/batch_issuer.py` (batch credential issuing on
Bitcoin).  The Python source is embedded shallowly: the ordered dictionary of
certificates becomes a list of `(uid, metadata)` pairs, file-system reads
become an explicit `readFile : String → Json` function, the process-wide
document-loader cache becomes an explicit association list threaded through
calls, and exceptions become `Except IssuerError`.

Code of the repository that is not under `src/` (the `tx_utils`, `helpers`,
`errors` and `issuer` modules, and the external `merkleproof` library) is
modelled from the spec; each such definition carries a doc comment starting
with `Modelled from the spec:`.
-/

namespace BatchIssuer

/-- A minimal JSON value type, standing in for Python dict/list/str values
produced by `json.load` / consumed by `json.dumps`. -/
inductive Json where
  | null : Json
  | bool : Bool → Json
  | num : Int → Json
  | str : String → Json
  | arr : List Json → Json
  | obj : List (String × Json) → Json

/-- The process-wide `werkzeug` `SimpleCache`, modelled as an association
list from URL to document; the most recent entry for a key shadows older
ones. -/
def Cache (Doc : Type) : Type := List (String × Doc)

/-- `cache.get(url)`: the most recently stored document for `url`, if any. -/
def Cache.get {Doc : Type} (c : Cache Doc) (url : String) : Option Doc :=
  (List.find? (fun p => p.1 == url) c).map (fun p => p.2)

/-- `cache.set(url, doc)`: store `doc` under `url` (shadowing any older
entry). -/
def Cache.set {Doc : Type} (c : Cache Doc) (url : String) (d : Doc) : Cache Doc :=
  (url, d) :: c

/-- Result of one call to `cached_document_loader`: the returned document,
the cache state after the call, and whether the underlying
`jsonld_document_loader` was actually invoked (`fetched`). -/
structure LoaderResult (Doc : Type) where
  doc : Doc
  cache : Cache Doc
  fetched : Bool

/-- `cached_document_loader(url, override_cache=False)` from
`batch_issuer.py`.  `loader` is the external `jsonld_document_loader`
(assumed to be a pure function of the URL), `truthy` is Python truthiness of
a document value (the cache hit test is `if result:`).  The global cache is
passed in and the updated cache returned. -/
def cached_document_loader {Doc : Type} (loader : String → Doc) (truthy : Doc → Bool)
    (c : Cache Doc) (url : String) (override_cache : Bool) : LoaderResult Doc :=
  if !override_cache then
    match Cache.get c url with
    | some result =>
        if truthy result then ⟨result, c, false⟩
        else
          let doc := loader url
          ⟨doc, Cache.set c url doc, true⟩
    | none =>
        let doc := loader url
        ⟨doc, Cache.set c url doc, true⟩
  else
    let doc := loader url
    ⟨doc, Cache.set c url doc, true⟩

/-- A cache state is consistent with the (pure) underlying loader when every
stored entry is exactly what the loader returns for that URL.  Every cache
state the program can reach is of this form, since `cached_document_loader`
is the only writer. -/
def CacheConsistent {Doc : Type} (loader : String → Doc) (c : Cache Doc) : Prop :=
  ∀ url d, Cache.get c url = some d → d = loader url

/-- Error values raised by the pipeline.  The code under `src/` raises only
`insufficientFundsError` (from `cert_issuer.errors`); the remaining
constructors model the spec's error taxonomy for code outside `src/`
(`emptyBatchError` for finalizing an empty tree, `noSpendableInputError`
from the spec's §4.5 taxonomy) and Python runtime errors
(`attributeError` for reading an attribute that was never assigned,
`typeError` for `unhexlify(None)`). -/
inductive IssuerError where
  | insufficientFundsError : String → IssuerError
  | emptyBatchError : IssuerError
  | noSpendableInputError : String → IssuerError
  | attributeError : String → IssuerError
  | typeError : String → IssuerError
deriving DecidableEq

/-- Which side of the concatenation a Merkle proof sibling sits on. -/
inductive Side where
  | left : Side
  | right : Side
deriving DecidableEq

/-- One entry of a Merkle inclusion proof: a sibling hash tagged with its
side. -/
structure ProofEntry where
  sibling_hash : String
  side : Side
deriving DecidableEq

/-- Modelled from the spec: the receipt produced by
`merkleproof.MerkleTree.make_receipt` (not under `src/`), per the spec's
receipt file format: proof (sibling path), merkle root and transaction
id. -/
structure Receipt where
  proof : List ProofEntry
  merkle_root : Option String
  tx_id : String
deriving DecidableEq

/-- Modelled from the spec: one level-reduction step of the Merkle tree of
the `merkleproof` library (not under `src/`): adjacent nodes are pairwise
hashed; a trailing odd node is carried forward unchanged to the next
level. -/
def hashLevel (f : String → String) : List String → List String
  | [] => []
  | [x] => [x]
  | x :: y :: rest => f (x ++ y) :: hashLevel f rest

/-- Level-by-level reduction with explicit fuel; each step at least halves
a level of two or more nodes, so fuel equal to the leaf count always
suffices. -/
def merkle_root_fuel (f : String → String) : Nat → List String → Option String
  | _, [] => none
  | _, [x] => some x
  | 0, _ :: _ :: _ => none
  | n + 1, x :: y :: rest => merkle_root_fuel f n (hashLevel f (x :: y :: rest))

/-- Modelled from the spec: the Merkle root of an ordered leaf list —
reduce level by level until one node remains; the root of an empty leaf
list does not exist. -/
def merkle_root_list (f : String → String) (l : List String) : Option String :=
  merkle_root_fuel f l.length l

/-- Sibling-path computation with explicit fuel, mirroring
`merkle_root_fuel`. -/
def merkle_proof_fuel (f : String → String) : Nat → List String → Nat → List ProofEntry
  | _, [], _ => []
  | _, [_], _ => []
  | 0, _ :: _ :: _, _ => []
  | n + 1, x :: y :: rest, i =>
    let lvl := x :: y :: rest
    let entry :=
      if i % 2 == 0 then
        match lvl.get? (i + 1) with
        | some s => [ProofEntry.mk s Side.right]
        | none => []
      else
        match lvl.get? (i - 1) with
        | some s => [ProofEntry.mk s Side.left]
        | none => []
    entry ++ merkle_proof_fuel f n (hashLevel f lvl) (i / 2)

/-- Modelled from the spec: the ordered sibling path from leaf index `i` to
the root.  At each level the node at an even position takes the sibling on
its right, at an odd position the sibling on its left; a carried-forward
trailing node (no sibling at its level) contributes no entry. -/
def merkle_proof_list (f : String → String) (l : List String) (i : Nat) : List ProofEntry :=
  merkle_proof_fuel f l.length l i

/-- Modelled from the spec: the `merkleproof.MerkleTree` state (not under
`src/`), as used by `batch_issuer.py`: the hash function it was constructed
with (`MerkleTree(hash_f=sha256)`), the ordered leaf list, and whether
`make_tree` has run.  Leaves and intermediate hashes are hex strings;
combining two nodes is modelled as hashing their concatenation. -/
structure MerkleTree where
  hash_f : String → String
  leaves : List String
  is_ready : Bool

/-- A fresh tree over the given hash function, as built in
`BatchIssuer.__init__`. -/
def MerkleTree.new (f : String → String) : MerkleTree := ⟨f, [], false⟩

/-- Modelled from the spec: `add_leaf(value, do_hash)` appends a leaf (the
value itself when `do_hash` is false, its hash otherwise) and un-finalizes
the tree. -/
def MerkleTree.add_leaf (t : MerkleTree) (value : String) (do_hash : Bool) : MerkleTree :=
  ⟨t.hash_f, t.leaves ++ [if do_hash then t.hash_f value else value], false⟩

/-- Modelled from the spec: `make_tree()` finalizes the tree; per the
spec's §4.2 it fails on an empty batch. -/
def MerkleTree.make_tree (t : MerkleTree) : Except IssuerError MerkleTree :=
  if t.leaves.isEmpty then Except.error IssuerError.emptyBatchError
  else Except.ok ⟨t.hash_f, t.leaves, true⟩

/-- Modelled from the spec: `get_merkle_root()` returns the hex root of a
finalized tree and `None` before finalization. -/
def MerkleTree.get_merkle_root (t : MerkleTree) : Option String :=
  if t.is_ready then merkle_root_list t.hash_f t.leaves else none

/-- Modelled from the spec: `make_receipt(index, tx_id)` packages leaf
`index`'s proof path with the root and a transaction id.  The library's
`IndexOutOfRangeError` for `index ≥ leaf count` is not modelled (no claim
exercises it); out of range the sibling path is simply empty at each
level. -/
def MerkleTree.make_receipt (t : MerkleTree) (index : Nat) (tx_id : String) : Receipt :=
  ⟨merkle_proof_list t.hash_f t.leaves index, merkle_root_list t.hash_f t.leaves, tx_id⟩

/-- Numeric value of one hex digit character. -/
def hexDigitVal (c : Char) : Nat :=
  if c.isDigit then c.toNat - 48
  else if c ≥ 'a' && c ≤ 'f' then c.toNat - 87
  else if c ≥ 'A' && c ≤ 'F' then c.toNat - 55
  else 0

/-- Hex digit character of a value below 16. -/
def hexDigitChar (n : Nat) : Char :=
  if n < 10 then Char.ofNat (48 + n) else Char.ofNat (87 + n)

/-- Pairs of hex digit characters to bytes. -/
def unhexlifyChars : List Char → List Nat
  | c1 :: c2 :: rest => (16 * hexDigitVal c1 + hexDigitVal c2) :: unhexlifyChars rest
  | _ => []

/-- Modelled from the spec: `cert_issuer.helpers.unhexlify` (not under
`src/`) decodes a hex string to raw bytes, modelled as `List Nat`. -/
def unhexlify (s : String) : List Nat := unhexlifyChars s.data

/-- Modelled from the spec: `cert_issuer.helpers.hexlify` (not under
`src/`) encodes raw bytes as a lowercase hex string. -/
def hexlify (b : List Nat) : String :=
  String.mk (b.flatMap (fun n => [hexDigitChar (n / 16 % 16), hexDigitChar (n % 16)]))

/-- The per-certificate metadata fields of `certificates_to_issue` that
`batch_issuer.py` reads: the recipient public key, the optional revocation
key, and the three file names.  A revocation key that is Python-falsy
(`None` or the empty string) counts as absent. -/
structure CertificateMetadata where
  public_key : String
  revocation_key : Option String
  signed_cert_file_name : String
  receipt_file_name : String
  blockchain_cert_file_name : String
deriving DecidableEq

/-- Python truthiness of an optional string (`if certificate.revocation_key:`):
`None` and the empty string are falsy. -/
def pyTruthyOptStr : Option String → Bool
  | none => false
  | some s => !(s == "")

/-- The transaction cost constants object: the minimum (dust) value of one
output, and the fee policy as a function of input and output counts. -/
structure TxCostConstants where
  minimum_output_coin : Nat
  fee : Nat → Nat → Nat

/-- `tx_cost_constants.get_minimum_output_coin()`. -/
def TxCostConstants.get_minimum_output_coin (k : TxCostConstants) : Nat :=
  k.minimum_output_coin

/-- Modelled from the spec: `tx_utils.calculate_tx_total` (not under
`src/`): total required value = `num_outputs * m + fee(num_inputs,
num_outputs)` with `m` the minimum output value. -/
def calculate_tx_total (k : TxCostConstants) (num_inputs num_outputs : Nat) : Nat :=
  num_outputs * k.minimum_output_coin + k.fee num_inputs num_outputs

/-- One transaction output: a payment to an address, or the data-carrying
(OP_RETURN) output holding the commitment payload bytes. -/
inductive TxOutput where
  | payment : String → Nat → TxOutput
  | data : List Nat → TxOutput
deriving DecidableEq

/-- Modelled from the spec: `tx_utils.create_transaction_output(address,
value)` (not under `src/`). -/
def create_transaction_output (address : String) (value : Nat) : TxOutput :=
  TxOutput.payment address value

/-- One spendable unspent output, as returned by the connector. -/
structure SpendableInput where
  tx_hash : String
  tx_out_index : Nat
  value : Nat
deriving DecidableEq

/-- The assembled (unsigned) anchoring transaction: the single input and
the ordered output list. -/
structure Transaction where
  tx_input : SpendableInput
  outputs : List TxOutput
deriving DecidableEq

/-- Modelled from the spec: `tx_utils.create_trx(op_return_value, total,
issuing_address, tx_outs, tx_input)` (not under `src/`): appends the
data-embedding output carrying the commitment payload and the change output
returning `input value − total` to the issuing address, and fails with
`InsufficientFundsError` when the selected input's value is strictly below
the total. -/
def create_trx (op_return_value : List Nat) (total : Nat) (issuing_address : String)
    (tx_outs : List TxOutput) (inp : SpendableInput) : Except IssuerError Transaction :=
  if inp.value < total then
    Except.error (IssuerError.insufficientFundsError
      "Input value is less than the total required value")
  else
    Except.ok ⟨inp, tx_outs ++ [TxOutput.data op_return_value,
      TxOutput.payment issuing_address (inp.value - total)]⟩

/-- The batch metadata object; `batch_issuer.py` reads its `batch_id`. -/
structure BatchMetadata where
  batch_id : String
deriving DecidableEq

/-- The `TransactionData` record returned by `create_transactions`. -/
structure TransactionData where
  uid : String
  tx : Transaction
  tx_input : SpendableInput
  op_return_value : String
  batch_metadata : BatchMetadata
deriving DecidableEq

/-- The mutable state of a `BatchIssuer` object: the fields of `self` that
the embedded methods read or write.  `total` is `none` until
`calculate_cost_for_certificate_batch` assigns it (reading it before that
is a Python `AttributeError`). -/
structure BatchIssuerState where
  issuing_address : String
  certificates_to_issue : List (String × CertificateMetadata)
  tree : MerkleTree
  tx_cost_constants : TxCostConstants
  batch_metadata : BatchMetadata
  total : Option Nat

/-- `self.batch_id`, assigned from `batch_metadata.batch_id` in
`__init__`. -/
def BatchIssuerState.batch_id (s : BatchIssuerState) : String :=
  s.batch_metadata.batch_id

/-- `BatchIssuer.do_hash_certificate(certificate)`: parse the certificate
bytes as JSON, JSON-LD normalize it with `cached_document_loader` as the
document loader, hash the normalization, and append the hash as a leaf
(`add_leaf(hashed, False)`).  The external `json.loads` and
`jsonld.normalize` are parameters; the hash is the tree's `hash_f` (the
same `sha256` the tree was constructed with).  `cache` is the process-wide
loader cache at call time; the (pure) document-loader function handed to
`normalize` is the view `cached_document_loader` presents of it. -/
def do_hash_certificate {Doc : Type} (loader : String → Doc) (truthy : Doc → Bool)
    (json_loads : String → Json) (normalize : (String → Doc) → Json → String)
    (cache : Cache Doc) (s : BatchIssuerState) (certificate : String) :
    String × BatchIssuerState :=
  let documentLoader := fun url => (cached_document_loader loader truthy cache url false).doc
  let cert_json := json_loads certificate
  let normalized := normalize documentLoader cert_json
  let hashed := s.tree.hash_f normalized
  (hashed, { s with tree := s.tree.add_leaf hashed false })

/-- `BatchIssuer.calculate_cost_for_certificate_batch()`: one input, one
output per certificate, one more per certificate whose `revocation_key` is
truthy, plus three (global revocation, change, OP_RETURN); the total from
`tx_utils.calculate_tx_total` is stored in `self.total` and returned. -/
def calculate_cost_for_certificate_batch (s : BatchIssuerState) :
    Nat × BatchIssuerState :=
  let num_inputs := 1
  let num_outputs := s.certificates_to_issue.length
  let num_outputs := num_outputs +
    s.certificates_to_issue.countP (fun c => pyTruthyOptStr c.2.revocation_key)
  let num_outputs := num_outputs + 3
  let total := calculate_tx_total s.tx_cost_constants num_inputs num_outputs
  (total, { s with total := some total })

/-- `BatchIssuer.build_recipient_tx_outs()`: fold over the certificates in
batch order, appending an output to each recipient's public key at the
minimum output value, followed — when that certificate's revocation key is
truthy — by an output to the revocation key at the minimum output value. -/
def build_recipient_tx_outs (s : BatchIssuerState) : List TxOutput :=
  s.certificates_to_issue.foldl
    (fun tx_outs c =>
      let certificate := c.2
      let recipient_outs := [create_transaction_output certificate.public_key
        s.tx_cost_constants.get_minimum_output_coin]
      let recipient_outs :=
        if pyTruthyOptStr certificate.revocation_key then
          recipient_outs ++ [create_transaction_output (certificate.revocation_key.getD "")
            s.tx_cost_constants.get_minimum_output_coin]
        else recipient_outs
      tx_outs ++ recipient_outs)
    []

/-- `BatchIssuer.create_transactions(revocation_address)`: finalize the
tree, fetch the spendable outputs of the issuing address from the
connector (raising when there are none), select the last one
(`spendables[-1]`), decode the Merkle root as the OP_RETURN payload, build
the recipient outputs plus one output to the batch-wide revocation
address, and hand everything to `tx_utils.create_trx` together with
`self.total`; the resulting transaction is wrapped in a single
`TransactionData`. -/
def create_transactions (s : BatchIssuerState)
    (connector : String → List SpendableInput) (revocation_address : String) :
    Except IssuerError (List TransactionData × BatchIssuerState) :=
  match s.tree.make_tree with
  | Except.error e => Except.error e
  | Except.ok made =>
    let s := { s with tree := made }
    let spendables := connector s.issuing_address
    match spendables.getLast? with
    | none =>
        Except.error (IssuerError.insufficientFundsError
          ("No money to spend at address " ++ s.issuing_address))
    | some last_input =>
      match s.tree.get_merkle_root with
      | none => Except.error (IssuerError.typeError "unhexlify expects a string, got None")
      | some root_hex =>
        let op_return_value := unhexlify root_hex
        let tx_outs := build_recipient_tx_outs s
        let tx_outs := tx_outs ++ [create_transaction_output revocation_address
          s.tx_cost_constants.get_minimum_output_coin]
        match s.total with
        | none => Except.error (IssuerError.attributeError "total")
        | some total =>
          match create_trx op_return_value total s.issuing_address tx_outs last_input with
          | Except.error e => Except.error e
          | Except.ok transaction =>
            Except.ok ([{ uid := s.batch_id, tx := transaction, tx_input := last_input,
                          op_return_value := hexlify op_return_value,
                          batch_metadata := s.batch_metadata }], s)

/-- JSON rendering of a proof entry side. -/
def Side.toJsonStr : Side → String
  | Side.left => "left"
  | Side.right => "right"

/-- JSON rendering of one Merkle proof entry. -/
def ProofEntry.toJson (e : ProofEntry) : Json :=
  Json.obj [("sibling_hash", Json.str e.sibling_hash),
            ("side", Json.str e.side.toJsonStr)]

/-- JSON rendering of a receipt (`json.dumps(receipt)`), per the spec's
receipt file format. -/
def Receipt.toJson (r : Receipt) : Json :=
  Json.obj [("proof", Json.arr (r.proof.map ProofEntry.toJson)),
            ("merkle_root", match r.merkle_root with
                            | none => Json.null
                            | some h => Json.str h),
            ("tx_id", Json.str r.tx_id)]

/-- The persisted artifacts for one certificate: the receipt written to the
receipt file, and the combined blockchain certificate written to the
blockchain certificate file. -/
structure IssuedRecord where
  uid : String
  receipt : Receipt
  receipt_file_name : String
  receipt_json : Json
  blockchain_cert_file_name : String
  blockchain_cert : Json

/-- The body of the `persist_tx` loop, with the running `index` counter
that starts at 0 and increments once per certificate of the iteration
order. -/
def persist_tx_loop (tree : MerkleTree) (readFile : String → Json) (tx_id : String) :
    Nat → List (String × CertificateMetadata) → List IssuedRecord
  | _, [] => []
  | index, (uid, metadata) :: rest =>
    let receipt := tree.make_receipt index tx_id
    let signed_cert := readFile metadata.signed_cert_file_name
    let blockchain_cert := Json.obj
      [("@context", Json.str "https://w3id.org/blockcerts/v1"),
       ("type", Json.str "BlockchainCertificate"),
       ("document", signed_cert),
       ("receipt", receipt.toJson)]
    { uid := uid, receipt := receipt,
      receipt_file_name := metadata.receipt_file_name,
      receipt_json := receipt.toJson,
      blockchain_cert_file_name := metadata.blockchain_cert_file_name,
      blockchain_cert := blockchain_cert } :: persist_tx_loop tree readFile tx_id (index + 1) rest

/-- `BatchIssuer.persist_tx(sent_tx_file_name, tx_id)` after the base-class
call: iterate over `certificates_to_issue` in order with `index` starting
at 0, emitting for each certificate its receipt (`make_receipt(index,
tx_id)`) and the combined blockchain certificate built from the signed
certificate JSON read back from its file.  File writes are modelled as the
returned records; `readFile` models `json.load` on a named file. -/
def persist_tx (s : BatchIssuerState) (readFile : String → Json) (tx_id : String) :
    List IssuedRecord :=
  persist_tx_loop s.tree readFile tx_id 0 s.certificates_to_issue

/-- The spec's §4.4 per-credential output block, written from the spec's
words for comparison with `build_recipient_tx_outs`: one output to the
recipient address at the minimum output value, followed — when the
credential has a revocation address — by one output to that address at the
minimum output value. -/
def credential_outputs_spec (k : TxCostConstants) (c : CertificateMetadata) :
    List TxOutput :=
  [TxOutput.payment c.public_key k.minimum_output_coin] ++
    (if pyTruthyOptStr c.revocation_key then
      [TxOutput.payment (c.revocation_key.getD "") k.minimum_output_coin]
    else [])

/-- Whether a pipeline step ended in `InsufficientFundsError`. -/
def is_insufficient_funds_error {α : Type} : Except IssuerError α → Bool
  | Except.error (IssuerError.insufficientFundsError _) => true
  | _ => false

/-- Whether a pipeline step ended in the spec's `NoSpendableInputError`. -/
def is_no_spendable_input_error {α : Type} : Except IssuerError α → Bool
  | Except.error (IssuerError.noSpendableInputError _) => true
  | _ => false

/-- Whether a pipeline step succeeded. -/
def exceptOk {ε α : Type} : Except ε α → Bool
  | Except.ok _ => true
  | Except.error _ => false

/-- Concrete cost constants for concrete runs: minimum output value 600,
flat fee 1000. -/
def exampleCostConstants : TxCostConstants := ⟨600, fun _ _ => 1000⟩

/-- A concrete one-certificate batch state with one hashed leaf and a
computed total of 700 = 600 + 100 ≤ any example input value. -/
def exampleState : BatchIssuerState :=
  ⟨"addr1", [("cert1", ⟨"pk1", some "rk1", "s1", "r1", "b1"⟩)],
    ⟨fun x => x, ["aa"], false⟩, exampleCostConstants, ⟨"batch1"⟩, some 700⟩

/-- A concrete connector holding one spendable input worth 1000000. -/
def exampleConnector : String → List SpendableInput := fun _ => [⟨"t0", 0, 1000000⟩]

/-- The transaction data `create_transactions` produces on `exampleState`
with `exampleConnector` and revocation address `rev1`
(`create_transactions_example`). -/
def exampleTransactionData : TransactionData :=
  { uid := "batch1",
    tx := ⟨⟨"t0", 0, 1000000⟩,
      (build_recipient_tx_outs exampleState
        ++ [create_transaction_output "rev1" 600])
      ++ [TxOutput.data (unhexlify "aa"),
          TxOutput.payment "addr1" (1000000 - 700)]⟩,
    tx_input := ⟨"t0", 0, 1000000⟩,
    op_return_value := hexlify (unhexlify "aa"),
    batch_metadata := ⟨"batch1"⟩ }

/-- The state after `create_transactions` on `exampleState`: the tree is
finalized. -/
def exampleFinalState : BatchIssuerState :=
  { exampleState with tree := ⟨fun x => x, ["aa"], true⟩ }

/-- Length of one pairwise-hashed level. -/
theorem hashLevel_length (f : String → String) :
    ∀ l : List String, (hashLevel f l).length = (l.length + 1) / 2
  | [] => rfl
  | [_] => by simp [hashLevel]
  | x :: y :: rest => by
      simp only [hashLevel, List.length_cons, hashLevel_length f rest]
      omega

/-- On a consistent cache the document returned by `cached_document_loader`
is always the loader's document, whatever the cache and override flag. -/
theorem cached_document_loader_doc_eq {Doc : Type} (loader : String → Doc)
    (truthy : Doc → Bool) (c : Cache Doc) (url : String) (ov : Bool)
    (hc : CacheConsistent loader c) :
    (cached_document_loader loader truthy c url ov).doc = loader url := by
  unfold cached_document_loader
  cases ov with
  | true => simp
  | false =>
    simp only [Bool.not_false, if_pos]
    cases hget : Cache.get c url with
    | none => simp
    | some result =>
      have := hc url result hget
      subst this
      by_cases ht : truthy (loader url) = true
      · simp [ht]
      · simp [Bool.eq_false_iff.mpr ht] at ht ⊢

/-- A cache lookup right after storing a document finds that document. -/
theorem Cache.get_set_self {Doc : Type} (c : Cache Doc) (url : String) (d : Doc) :
    Cache.get (Cache.set c url d) url = some d := by
  simp [Cache.get, Cache.set, List.find?]

/-- Storing under a different URL does not change a lookup. -/
theorem Cache.get_set_ne {Doc : Type} (c : Cache Doc) (url url2 : String) (d : Doc)
    (h : ¬ url2 = url) :
    Cache.get (Cache.set c url2 d) url = Cache.get c url := by
  have hb : (url2 == url) = false := by
    simp [h]
  simp [Cache.get, Cache.set, List.find?, hb]

/-- After one loader call the cache is either unchanged (truthy cache hit)
or has the loader's document stored under the requested URL. -/
theorem cached_document_loader_cache_cases {Doc : Type} (loader : String → Doc)
    (truthy : Doc → Bool) (c : Cache Doc) (url2 : String) (ov : Bool) :
    (cached_document_loader loader truthy c url2 ov).cache = c
    ∨ (cached_document_loader loader truthy c url2 ov).cache =
        Cache.set c url2 (loader url2) := by
  cases ov with
  | true => right; rfl
  | false =>
    cases hget : Cache.get c url2 with
    | none => right; simp [cached_document_loader, hget]
    | some d =>
      by_cases ht : truthy d = true
      · left; simp [cached_document_loader, hget, ht]
      · right; simp [cached_document_loader, hget, Bool.eq_false_iff.mpr ht]

/-- Claim C10: `cached_document_loader` is read-through with a truthiness
caveat: a call whose cached document is truthy returns the stored value
without invoking the underlying loader; any fetching call returns the
loader's document and stores it; an entry holding the loader's document
survives every later call; when the loader's document is falsy the cache
hit test fails and a non-overriding call re-fetches; and an overriding
call always re-fetches and overwrites the cache entry. -/
theorem cached_document_loader_read_through :
    ∀ (Doc : Type) (loader : String → Doc) (truthy : Doc → Bool)
      (c : Cache Doc) (url : String),
      (∀ d, Cache.get c url = some d → truthy d = true →
        cached_document_loader loader truthy c url false = ⟨d, c, false⟩)
      ∧ (∀ ov, (cached_document_loader loader truthy c url ov).fetched = true →
          (cached_document_loader loader truthy c url ov).doc = loader url
          ∧ Cache.get (cached_document_loader loader truthy c url ov).cache url
              = some (loader url))
      ∧ (∀ url2 ov, Cache.get c url = some (loader url) →
          Cache.get (cached_document_loader loader truthy c url2 ov).cache url
            = some (loader url))
      ∧ (truthy (loader url) = false →
          (∀ d, Cache.get c url = some d → d = loader url) →
          cached_document_loader loader truthy c url false =
            ⟨loader url, Cache.set c url (loader url), true⟩)
      ∧ cached_document_loader loader truthy c url true =
          ⟨loader url, Cache.set c url (loader url), true⟩ := by
  intro Doc loader truthy c url
  refine ⟨?_, ?_, ?_, ?_, ?_⟩
  · intro d hget ht
    simp [cached_document_loader, hget, ht]
  · intro ov
    cases ov with
    | true =>
      intro _
      exact ⟨rfl, Cache.get_set_self c url (loader url)⟩
    | false =>
      cases hget : Cache.get c url with
      | none =>
        intro _
        constructor
        · simp [cached_document_loader, hget]
        · simp [cached_document_loader, hget, Cache.get_set_self]
      | some d =>
        by_cases ht : truthy d = true
        · intro hfetch
          simp [cached_document_loader, hget, ht] at hfetch
        · intro _
          constructor
          · simp [cached_document_loader, hget, Bool.eq_false_iff.mpr ht]
          · simp [cached_document_loader, hget, Bool.eq_false_iff.mpr ht,
              Cache.get_set_self]
  · intro url2 ov hstored
    rcases cached_document_loader_cache_cases loader truthy c url2 ov with hc | hc
    · rw [hc]; exact hstored
    · rw [hc]
      by_cases hu : url2 = url
      · subst hu
        exact Cache.get_set_self c url2 (loader url2)
      · rw [Cache.get_set_ne c url url2 _ hu]
        exact hstored
  · intro hfalsy hcons
    cases hget : Cache.get c url with
    | none => simp [cached_document_loader, hget]
    | some d =>
      have hd := hcons d hget
      subst hd
      simp [cached_document_loader, hget, hfalsy]
  · rfl

/-- Witness for C10 at concrete inputs: a truthy cache hit is returned
without fetching; a falsy loader document forces a re-fetch despite the
cache entry; an overriding call re-fetches and overwrites. -/
theorem cached_document_loader_read_through_witness :
    cached_document_loader (fun _ => "d") (fun s => !(s == "")) [("u", "d")] "u" false
      = ⟨"d", [("u", "d")], false⟩
    ∧ cached_document_loader (fun _ => "") (fun s => !(s == "")) [("u", "")] "u" false
      = ⟨"", Cache.set [("u", "")] "u" "", true⟩
    ∧ cached_document_loader (fun _ => "d") (fun s => !(s == "")) [] "u" true
      = ⟨"d", Cache.set [] "u" "d", true⟩ := by
  refine ⟨?_, ?_, ?_⟩
  · exact (cached_document_loader_read_through String (fun _ => "d")
      (fun s => !(s == "")) [("u", "d")] "u").1 "d" (by decide) (by decide)
  · exact (cached_document_loader_read_through String (fun _ => "")
      (fun s => !(s == "")) [("u", "")] "u").2.2.2.1 (by decide)
      (by intro d h; exact (Option.some.inj h).symm)
  · exact (cached_document_loader_read_through String (fun _ => "d")
      (fun s => !(s == "")) [] "u").2.2.2.2

/-- Claim C9: hashing a certificate is deterministic and cache-insensitive:
with the underlying document loader a pure function of the URL, running
`do_hash_certificate` against any two loader-consistent cache states (in
particular the empty cache and any populated one) yields the same digest
and appends the same leaf. -/
theorem do_hash_certificate_cache_insensitive :
    ∀ (Doc : Type) (loader : String → Doc) (truthy : Doc → Bool)
      (json_loads : String → Json) (normalize : (String → Doc) → Json → String)
      (c1 c2 : Cache Doc) (s : BatchIssuerState) (certificate : String),
      CacheConsistent loader c1 → CacheConsistent loader c2 →
      do_hash_certificate loader truthy json_loads normalize c1 s certificate =
        do_hash_certificate loader truthy json_loads normalize c2 s certificate := by
  intro Doc loader truthy json_loads normalize c1 c2 s certificate h1 h2
  have hl1 : (fun url => (cached_document_loader loader truthy c1 url false).doc) = loader :=
    funext (fun url => cached_document_loader_doc_eq loader truthy c1 url false h1)
  have hl2 : (fun url => (cached_document_loader loader truthy c2 url false).doc) = loader :=
    funext (fun url => cached_document_loader_doc_eq loader truthy c2 url false h2)
  unfold do_hash_certificate
  rw [hl1, hl2]

/-- Witness for C9: an empty cache and a cache already populated with the
loader's document give the same digest and the same appended leaf. -/
theorem do_hash_certificate_cache_insensitive_witness :
    (CacheConsistent (fun _ => "d") ([] : Cache String)
      ∧ CacheConsistent (fun _ => "d") [("u", "d")])
    ∧ do_hash_certificate (fun _ => "d") (fun s => !(s == ""))
        (fun _ => Json.null) (fun dl _ => dl "u") []
        ⟨"addr1", [], MerkleTree.new (fun x => x), ⟨600, fun _ _ => 1000⟩, ⟨"b1"⟩, none⟩
        "certbytes"
      = do_hash_certificate (fun _ => "d") (fun s => !(s == ""))
          (fun _ => Json.null) (fun dl _ => dl "u") [("u", "d")]
          ⟨"addr1", [], MerkleTree.new (fun x => x), ⟨600, fun _ _ => 1000⟩, ⟨"b1"⟩, none⟩
          "certbytes" := by
  have hc1 : CacheConsistent (fun _ => "d") ([] : Cache String) := by
    intro url d h
    simp [Cache.get, List.find?] at h
  have hc2 : CacheConsistent (fun _ => "d") [("u", "d")] := by
    intro url d h
    by_cases hu : ("u" : String) = url
    · subst hu
      exact (Option.some.inj h).symm
    · rw [show ([("u", "d")] : Cache String) = Cache.set [] "u" "d" from rfl,
        Cache.get_set_ne [] url "u" "d" hu] at h
      simp [Cache.get, List.find?] at h
  exact ⟨⟨hc1, hc2⟩,
    do_hash_certificate_cache_insensitive String (fun _ => "d") (fun s => !(s == ""))
      (fun _ => Json.null) (fun dl _ => dl "u") [] [("u", "d")]
      ⟨"addr1", [], MerkleTree.new (fun x => x), ⟨600, fun _ _ => 1000⟩, ⟨"b1"⟩, none⟩
      "certbytes" hc1 hc2⟩

/-- Claim C2: the batch cost is computed for exactly one input and
`R + V + 3` outputs, i.e. `(R + V + 3) * m + fee(1, R + V + 3)` with `R`
the number of credentials and `V` the number with a truthy revocation key;
a one-credential batch without a revocation key prices 4 outputs and one
with a revocation key prices 5. -/
theorem calculate_cost_claim :
    ∀ (s : BatchIssuerState),
      (calculate_cost_for_certificate_batch s).1 =
        calculate_tx_total s.tx_cost_constants 1
          (s.certificates_to_issue.length +
            s.certificates_to_issue.countP (fun c => pyTruthyOptStr c.2.revocation_key) + 3)
      ∧ (calculate_cost_for_certificate_batch s).1 =
          (s.certificates_to_issue.length +
            s.certificates_to_issue.countP (fun c => pyTruthyOptStr c.2.revocation_key) + 3)
            * s.tx_cost_constants.minimum_output_coin
          + s.tx_cost_constants.fee 1
              (s.certificates_to_issue.length +
                s.certificates_to_issue.countP (fun c => pyTruthyOptStr c.2.revocation_key) + 3)
      ∧ (calculate_cost_for_certificate_batch s).2.total =
          some (calculate_cost_for_certificate_batch s).1
      ∧ (s.certificates_to_issue.length = 1 →
          s.certificates_to_issue.countP (fun c => pyTruthyOptStr c.2.revocation_key) = 0 →
          (calculate_cost_for_certificate_batch s).1 =
            4 * s.tx_cost_constants.minimum_output_coin + s.tx_cost_constants.fee 1 4)
      ∧ (s.certificates_to_issue.length = 1 →
          s.certificates_to_issue.countP (fun c => pyTruthyOptStr c.2.revocation_key) = 1 →
          (calculate_cost_for_certificate_batch s).1 =
            5 * s.tx_cost_constants.minimum_output_coin + s.tx_cost_constants.fee 1 5) := by
  intro s
  refine ⟨rfl, rfl, rfl, ?_, ?_⟩
  · intro hR hV
    simp [calculate_cost_for_certificate_batch, calculate_tx_total, hR, hV]
  · intro hR hV
    simp [calculate_cost_for_certificate_batch, calculate_tx_total, hR, hV]

/-- Witness for C2: a one-credential batch without a revocation key costs
`4 * 600 + 1000`, and one with a revocation key costs `5 * 600 + 1000`. -/
theorem calculate_cost_claim_witness :
    (calculate_cost_for_certificate_batch
      ⟨"addr1", [("c1", ⟨"pk1", none, "s1", "r1", "b1"⟩)],
        MerkleTree.new (fun x => x), ⟨600, fun _ _ => 1000⟩, ⟨"b1"⟩, none⟩).1
      = 4 * 600 + 1000
    ∧ (calculate_cost_for_certificate_batch
      ⟨"addr1", [("c1", ⟨"pk1", some "rk1", "s1", "r1", "b1"⟩)],
        MerkleTree.new (fun x => x), ⟨600, fun _ _ => 1000⟩, ⟨"b1"⟩, none⟩).1
      = 5 * 600 + 1000 := by
  constructor
  · exact (calculate_cost_claim
      ⟨"addr1", [("c1", ⟨"pk1", none, "s1", "r1", "b1"⟩)],
        MerkleTree.new (fun x => x), ⟨600, fun _ _ => 1000⟩, ⟨"b1"⟩, none⟩).2.2.2.1
      (by decide) (by decide)
  · exact (calculate_cost_claim
      ⟨"addr1", [("c1", ⟨"pk1", some "rk1", "s1", "r1", "b1"⟩)],
        MerkleTree.new (fun x => x), ⟨600, fun _ _ => 1000⟩, ⟨"b1"⟩, none⟩).2.2.2.2
      (by decide) (by decide)

/-- Fuel of at least `length - 1` suffices for the level reduction to reach
a root on a non-empty leaf list. -/
theorem merkle_root_fuel_isSome (f : String → String) :
    ∀ (fuel : Nat) (l : List String), l ≠ [] → l.length ≤ fuel + 1 →
      (merkle_root_fuel f fuel l).isSome = true := by
  intro fuel
  induction fuel with
  | zero =>
    intro l hne hlen
    match l, hne, hlen with
    | [x], _, _ => rfl
    | x :: y :: rest, _, hlen => simp at hlen
  | succ n ih =>
    intro l hne hlen
    match l with
    | [x] => rfl
    | x :: y :: rest =>
      rw [merkle_root_fuel]
      apply ih
      · simp [hashLevel]
      · rw [hashLevel_length]
        simp only [List.length_cons] at hlen ⊢
        omega

/-- A non-empty leaf list always has a Merkle root. -/
theorem merkle_root_list_isSome (f : String → String) (l : List String)
    (hne : l ≠ []) : (merkle_root_list f l).isSome = true :=
  merkle_root_fuel_isSome f l.length l hne (Nat.le_succ_of_le (Nat.le_refl _))

/-- Unrolling the `build_recipient_tx_outs` fold: the accumulator is
extended by the flattened per-credential output blocks of the spec's
§4.4. -/
theorem build_fold_eq (k : TxCostConstants) :
    ∀ (certs : List (String × CertificateMetadata)) (acc : List TxOutput),
      List.foldl
        (fun tx_outs c =>
          tx_outs ++
            (if pyTruthyOptStr c.2.revocation_key then
              [create_transaction_output c.2.public_key k.minimum_output_coin]
                ++ [create_transaction_output (c.2.revocation_key.getD "")
                      k.minimum_output_coin]
            else [create_transaction_output c.2.public_key k.minimum_output_coin]))
        acc certs
      = acc ++ certs.flatMap (fun c => credential_outputs_spec k c.2)
  | [], acc => by simp
  | c :: rest, acc => by
      rw [List.foldl_cons, build_fold_eq k rest]
      cases h : pyTruthyOptStr c.2.revocation_key <;>
        simp [h, credential_outputs_spec, create_transaction_output,
          List.append_assoc]

/-- `build_recipient_tx_outs` produces exactly the concatenation of the
spec's per-credential output blocks, in batch order. -/
theorem build_recipient_tx_outs_eq (s : BatchIssuerState) :
    build_recipient_tx_outs s =
      s.certificates_to_issue.flatMap
        (fun c => credential_outputs_spec s.tx_cost_constants c.2) :=
  (build_fold_eq s.tx_cost_constants s.certificates_to_issue []).trans
    (List.nil_append _)

/-- `build_recipient_tx_outs` ignores the tree component of the state. -/
theorem build_recipient_tx_outs_tree_update (s : BatchIssuerState) (t : MerkleTree) :
    build_recipient_tx_outs { s with tree := t } = build_recipient_tx_outs s := rfl

/-- Forward run of `create_transactions` in the successful case. -/
theorem create_transactions_eq_ok (s : BatchIssuerState)
    (connector : String → List SpendableInput) (rev : String)
    (li : SpendableInput) (r : String) (t : Nat)
    (hleaves : s.tree.leaves.isEmpty = false)
    (hlast : (connector s.issuing_address).getLast? = some li)
    (hroot : merkle_root_list s.tree.hash_f s.tree.leaves = some r)
    (htotal : s.total = some t)
    (hval : ¬ li.value < t) :
    create_transactions s connector rev = Except.ok
      ([{ uid := s.batch_id,
          tx := ⟨li, (build_recipient_tx_outs s
            ++ [create_transaction_output rev
                  s.tx_cost_constants.get_minimum_output_coin])
            ++ [TxOutput.data (unhexlify r),
                TxOutput.payment s.issuing_address (li.value - t)]⟩,
          tx_input := li,
          op_return_value := hexlify (unhexlify r),
          batch_metadata := s.batch_metadata }],
       { s with tree := ⟨s.tree.hash_f, s.tree.leaves, true⟩ }) := by
  unfold create_transactions
  simp only [MerkleTree.make_tree, hleaves, Bool.false_eq_true, if_false,
    MerkleTree.get_merkle_root, if_true, hlast, hroot, htotal, create_trx,
    hval, BatchIssuerState.batch_id]
  rfl

/-- Forward run of `create_transactions` with an empty tree. -/
theorem create_transactions_empty_tree (s : BatchIssuerState)
    (connector : String → List SpendableInput) (rev : String)
    (hleaves : s.tree.leaves.isEmpty = true) :
    create_transactions s connector rev =
      Except.error IssuerError.emptyBatchError := by
  simp [create_transactions, MerkleTree.make_tree, hleaves]

/-- Forward run of `create_transactions` with no spendable inputs. -/
theorem create_transactions_no_spendables (s : BatchIssuerState)
    (connector : String → List SpendableInput) (rev : String)
    (hleaves : s.tree.leaves.isEmpty = false)
    (hconn : connector s.issuing_address = []) :
    create_transactions s connector rev =
      Except.error (IssuerError.insufficientFundsError
        ("No money to spend at address " ++ s.issuing_address)) := by
  simp [create_transactions, MerkleTree.make_tree, hleaves, hconn]

/-- Forward run of `create_transactions` with an underfunded input. -/
theorem create_transactions_insufficient (s : BatchIssuerState)
    (connector : String → List SpendableInput) (rev : String)
    (li : SpendableInput) (r : String) (t : Nat)
    (hleaves : s.tree.leaves.isEmpty = false)
    (hlast : (connector s.issuing_address).getLast? = some li)
    (hroot : merkle_root_list s.tree.hash_f s.tree.leaves = some r)
    (htotal : s.total = some t)
    (hval : li.value < t) :
    create_transactions s connector rev =
      Except.error (IssuerError.insufficientFundsError
        "Input value is less than the total required value") := by
  unfold create_transactions
  simp only [MerkleTree.make_tree, hleaves, Bool.false_eq_true, if_false,
    MerkleTree.get_merkle_root, if_true, hlast, hroot, htotal, create_trx,
    hval]

/-- Inversion of a successful `create_transactions` run: the scrutinized
state must have non-empty leaves, a last spendable input, a root, a
computed total not exceeding the input value, and the results are exactly
the assembled transaction data and the finalized-tree state. -/
theorem create_transactions_ok_inv (s : BatchIssuerState)
    (connector : String → List SpendableInput) (rev : String)
    (tds : List TransactionData) (s2 : BatchIssuerState)
    (h : create_transactions s connector rev = Except.ok (tds, s2)) :
    ∃ li r t,
      s.tree.leaves.isEmpty = false
      ∧ (connector s.issuing_address).getLast? = some li
      ∧ merkle_root_list s.tree.hash_f s.tree.leaves = some r
      ∧ s.total = some t
      ∧ ¬ li.value < t
      ∧ s2 = { s with tree := ⟨s.tree.hash_f, s.tree.leaves, true⟩ }
      ∧ tds =
        [{ uid := s.batch_id,
           tx := ⟨li, (build_recipient_tx_outs s
             ++ [create_transaction_output rev
                   s.tx_cost_constants.get_minimum_output_coin])
             ++ [TxOutput.data (unhexlify r),
                 TxOutput.payment s.issuing_address (li.value - t)]⟩,
           tx_input := li,
           op_return_value := hexlify (unhexlify r),
           batch_metadata := s.batch_metadata }] := by
  cases hleaves : s.tree.leaves.isEmpty with
  | true =>
    rw [create_transactions_empty_tree s connector rev hleaves] at h
    exact absurd h (by simp)
  | false =>
    cases hlast : (connector s.issuing_address).getLast? with
    | none =>
      have hconn : connector s.issuing_address = [] := by
        cases hc : connector s.issuing_address with
        | nil => rfl
        | cons a l => rw [hc] at hlast; simp [List.getLast?] at hlast
      rw [create_transactions_no_spendables s connector rev hleaves hconn] at h
      exact absurd h (by simp)
    | some li =>
      cases hroot : merkle_root_list s.tree.hash_f s.tree.leaves with
      | none =>
        have : (merkle_root_list s.tree.hash_f s.tree.leaves).isSome = true :=
          merkle_root_list_isSome s.tree.hash_f s.tree.leaves
            (by intro hnil; rw [hnil] at hleaves; simp at hleaves)
        rw [hroot] at this
        simp at this
      | some r =>
        cases htotal : s.total with
        | none =>
          unfold create_transactions at h
          simp only [MerkleTree.make_tree, hleaves, Bool.false_eq_true, if_false,
            MerkleTree.get_merkle_root, if_true, hlast, hroot, htotal] at h
          exact absurd h (by simp)
        | some t =>
          by_cases hval : li.value < t
          · rw [create_transactions_insufficient s connector rev li r t
              hleaves hlast hroot htotal hval] at h
            exact absurd h (by simp)
          · rw [create_transactions_eq_ok s connector rev li r t
              hleaves hlast hroot htotal hval] at h
            have h' := Except.ok.inj h
            refine ⟨li, r, t, rfl, rfl, rfl, rfl, hval, ?_, ?_⟩
            · have hsnd := (congrArg Prod.snd h').symm
              rw [htotal] at hsnd
              exact hsnd
            · exact (congrArg Prod.fst h').symm

/-- A concrete successful run of `create_transactions`. -/
theorem create_transactions_example :
    create_transactions exampleState exampleConnector "rev1" =
      Except.ok ([exampleTransactionData], exampleFinalState) :=
  create_transactions_eq_ok exampleState exampleConnector "rev1"
    ⟨"t0", 0, 1000000⟩ "aa" 700 rfl rfl rfl rfl (by decide)

/-- Claim C3: the assembled output list begins with, for each credential
in batch order, one output to its recipient address at the minimum output
value, immediately followed (when the credential has a truthy revocation
key) by one output to that key at the minimum output value; after all
per-credential outputs comes exactly one output to the batch-wide
revocation address at the minimum output value. -/
theorem build_recipient_tx_outs_order :
    ∀ (s : BatchIssuerState) (connector : String → List SpendableInput)
      (revocation_address : String),
      build_recipient_tx_outs s =
        s.certificates_to_issue.flatMap
          (fun c => credential_outputs_spec s.tx_cost_constants c.2)
      ∧ (∀ tds s2,
          create_transactions s connector revocation_address = Except.ok (tds, s2) →
          ∃ td rest, tds = [td]
            ∧ td.tx.outputs =
                s.certificates_to_issue.flatMap
                  (fun c => credential_outputs_spec s.tx_cost_constants c.2)
                ++ ([TxOutput.payment revocation_address
                      s.tx_cost_constants.minimum_output_coin] ++ rest)) := by
  intro s connector revocation_address
  constructor
  · exact build_recipient_tx_outs_eq s
  · intro tds s2 h
    obtain ⟨li, r, t, _, _, _, _, _, _, htds⟩ :=
      create_transactions_ok_inv s connector revocation_address tds s2 h
    refine ⟨_, [TxOutput.data (unhexlify r),
      TxOutput.payment s.issuing_address (li.value - t)], htds, ?_⟩
    show (build_recipient_tx_outs s
        ++ [create_transaction_output revocation_address
              s.tx_cost_constants.get_minimum_output_coin])
        ++ [TxOutput.data (unhexlify r),
            TxOutput.payment s.issuing_address (li.value - t)] = _
    rw [build_recipient_tx_outs_eq s]
    simp [create_transaction_output, TxCostConstants.get_minimum_output_coin]

/-- Witness for C3: on a concrete batch of one credential with a
revocation key, the recipient outputs are the recipient payment then the
revocation payment, and the assembled transaction's outputs continue with
the batch-wide revocation output. -/
theorem build_recipient_tx_outs_order_witness :
    build_recipient_tx_outs exampleState
      = [TxOutput.payment "pk1" 600, TxOutput.payment "rk1" 600]
    ∧ ∃ td rest, [exampleTransactionData] = [td]
        ∧ td.tx.outputs =
            [TxOutput.payment "pk1" 600, TxOutput.payment "rk1" 600]
            ++ ([TxOutput.payment "rev1" 600] ++ rest) := by
  have h := build_recipient_tx_outs_order exampleState exampleConnector "rev1"
  constructor
  · exact h.1
  · exact h.2 [exampleTransactionData] exampleFinalState create_transactions_example

/-- Claim C4: with a selected input and a computed batch total,
`InsufficientFundsError` arises from transaction assembly exactly when the
selected input's value is strictly below the total, and assembly succeeds
when the value equals the total. -/
theorem insufficient_funds_iff :
    ∀ (s : BatchIssuerState) (connector : String → List SpendableInput)
      (revocation_address : String) (li : SpendableInput) (t : Nat),
      s.tree.leaves.isEmpty = false →
      (connector s.issuing_address).getLast? = some li →
      s.total = some t →
      (is_insufficient_funds_error
          (create_transactions s connector revocation_address) = true
        ↔ li.value < t)
      ∧ (li.value = t →
          exceptOk (create_transactions s connector revocation_address) = true) := by
  intro s connector rev li t hleaves hlast htotal
  have hne : s.tree.leaves ≠ [] := by
    intro hnil; rw [hnil] at hleaves; simp at hleaves
  obtain ⟨r, hroot⟩ :=
    Option.isSome_iff_exists.mp (merkle_root_list_isSome s.tree.hash_f s.tree.leaves hne)
  constructor
  · constructor
    · intro hins
      by_contra hval
      rw [create_transactions_eq_ok s connector rev li r t
        hleaves hlast hroot htotal hval] at hins
      simp [is_insufficient_funds_error] at hins
    · intro hval
      rw [create_transactions_insufficient s connector rev li r t
        hleaves hlast hroot htotal hval]
      rfl
  · intro hval
    rw [create_transactions_eq_ok s connector rev li r t
      hleaves hlast hroot htotal (by omega)]
    rfl

/-- Witness for C4 at a concrete state whose input value exactly equals
the computed total (700): no `InsufficientFundsError`, and assembly
succeeds. -/
theorem insufficient_funds_iff_witness :
    (is_insufficient_funds_error
        (create_transactions exampleState (fun _ => [⟨"t0", 0, 700⟩]) "rev1") = true
      ↔ 700 < 700)
    ∧ (700 = 700 →
        exceptOk (create_transactions exampleState (fun _ => [⟨"t0", 0, 700⟩]) "rev1")
          = true) :=
  insufficient_funds_iff exampleState (fun _ => [⟨"t0", 0, 700⟩]) "rev1"
    ⟨"t0", 0, 700⟩ 700 rfl rfl rfl

/-- Claim C5 (amended): with an empty spendable-input list the code aborts
assembly before producing any transaction, but with
`InsufficientFundsError` (message `No money to spend at address …`), not
the spec's `NoSpendableInputError`. -/
theorem empty_spendables_abort :
    ∀ (s : BatchIssuerState) (connector : String → List SpendableInput)
      (revocation_address : String),
      s.tree.leaves.isEmpty = false →
      connector s.issuing_address = [] →
      create_transactions s connector revocation_address =
        Except.error (IssuerError.insufficientFundsError
          ("No money to spend at address " ++ s.issuing_address)) := by
  intro s connector rev hleaves hconn
  exact create_transactions_no_spendables s connector rev hleaves hconn

/-- Witness for C5's amended claim at a concrete state. -/
theorem empty_spendables_abort_witness :
    create_transactions exampleState (fun _ => []) "rev1" =
      Except.error (IssuerError.insufficientFundsError
        ("No money to spend at address " ++ "addr1")) :=
  empty_spendables_abort exampleState (fun _ => []) "rev1" rfl rfl

/-- Counterexample to C5 as stated: at a concrete batch state with no
spendable inputs, `create_transactions` does not fail with the spec's
`NoSpendableInputError` — it fails with `InsufficientFundsError`. -/
theorem empty_spendables_abort_counterexample :
    is_no_spendable_input_error
        (create_transactions exampleState (fun _ => []) "rev1") = false
    ∧ is_insufficient_funds_error
        (create_transactions exampleState (fun _ => []) "rev1") = true := by
  exact ⟨rfl, rfl⟩

/-- Claim C6: whenever the connector returns a non-empty input list and
assembly succeeds, the single transaction input is exactly the last
element of that list, and that same input is recorded in the returned
`TransactionData`. -/
theorem last_input_selected :
    ∀ (s : BatchIssuerState) (connector : String → List SpendableInput)
      (revocation_address : String) (tds : List TransactionData)
      (s2 : BatchIssuerState),
      connector s.issuing_address ≠ [] →
      create_transactions s connector revocation_address = Except.ok (tds, s2) →
      ∃ td, tds = [td]
        ∧ (connector s.issuing_address).getLast? = some td.tx_input
        ∧ td.tx.tx_input = td.tx_input := by
  intro s connector rev tds s2 _ h
  obtain ⟨li, r, t, _, hlast, _, _, _, _, htds⟩ :=
    create_transactions_ok_inv s connector rev tds s2 h
  exact ⟨_, htds, hlast, rfl⟩

/-- Witness for C6 on a concrete run: the recorded input is the last (and
only) spendable input of `exampleConnector`. -/
theorem last_input_selected_witness :
    ∃ td, [exampleTransactionData] = [td]
      ∧ (exampleConnector "addr1").getLast? = some td.tx_input
      ∧ td.tx.tx_input = td.tx_input :=
  last_input_selected exampleState exampleConnector "rev1"
    [exampleTransactionData] exampleFinalState
    (by simp [exampleConnector]) create_transactions_example

/-- Claim C7: `create_transactions` succeeds only when the batch total has
been computed by `calculate_cost_for_certificate_batch` (with `self.total`
unset it fails rather than producing a transaction); on success the change
output value is the input value minus that stored total, the tree of the
resulting state is finalized, and the embedded data payload is the decoded
Merkle root read from the finalized tree. -/
theorem create_transactions_requires_pipeline :
    ∀ (s : BatchIssuerState) (connector : String → List SpendableInput)
      (revocation_address : String),
      (s.total = none →
        exceptOk (create_transactions s connector revocation_address) = false)
      ∧ (∀ tds s2,
          create_transactions s connector revocation_address = Except.ok (tds, s2) →
          ∃ t li r td,
            s.total = some t
            ∧ s2.tree.is_ready = true
            ∧ MerkleTree.get_merkle_root s2.tree = some r
            ∧ (connector s.issuing_address).getLast? = some li
            ∧ tds = [td]
            ∧ td.tx.outputs.getLast? =
                some (TxOutput.payment s.issuing_address (li.value - t))
            ∧ TxOutput.data (unhexlify r) ∈ td.tx.outputs) := by
  intro s connector rev
  constructor
  · intro hnone
    cases hres : create_transactions s connector rev with
    | error e => rfl
    | ok p =>
      obtain ⟨li, r, t, _, _, _, htotal, _⟩ :=
        create_transactions_ok_inv s connector rev p.1 p.2 (by rw [hres])
      rw [hnone] at htotal
      exact absurd htotal (by simp)
  · intro tds s2 h
    obtain ⟨li, r, t, _, hlast, hroot, htotal, _, hs2, htds⟩ :=
      create_transactions_ok_inv s connector rev tds s2 h
    refine ⟨t, li, r, _, htotal, ?_, ?_, hlast, htds, ?_, ?_⟩
    · rw [hs2]
    · rw [hs2]
      simp only [MerkleTree.get_merkle_root, if_true]
      exact hroot
    · simp
    · simp

/-- Witness for C7: with the total never computed assembly fails, and on
the concrete successful run the change output and the embedded root
payload are as claimed. -/
theorem create_transactions_requires_pipeline_witness :
    exceptOk (create_transactions { exampleState with total := none }
        exampleConnector "rev1") = false
    ∧ ∃ t li r td,
        exampleState.total = some t
        ∧ exampleFinalState.tree.is_ready = true
        ∧ MerkleTree.get_merkle_root exampleFinalState.tree = some r
        ∧ (exampleConnector "addr1").getLast? = some li
        ∧ [exampleTransactionData] = [td]
        ∧ td.tx.outputs.getLast? =
            some (TxOutput.payment "addr1" (li.value - t))
        ∧ TxOutput.data (unhexlify r) ∈ td.tx.outputs :=
  ⟨(create_transactions_requires_pipeline { exampleState with total := none }
      exampleConnector "rev1").1 rfl,
   (create_transactions_requires_pipeline exampleState exampleConnector "rev1").2
      [exampleTransactionData] exampleFinalState create_transactions_example⟩

/-- The `persist_tx` loop emits one record per certificate. -/
theorem persist_tx_loop_length (tree : MerkleTree) (readFile : String → Json)
    (tx_id : String) :
    ∀ (n : Nat) (certs : List (String × CertificateMetadata)),
      (persist_tx_loop tree readFile tx_id n certs).length = certs.length
  | _, [] => rfl
  | n, (uid, m) :: rest => by
      simp [persist_tx_loop, persist_tx_loop_length tree readFile tx_id (n + 1) rest]

/-- The record at position `i` of the `persist_tx` loop started at counter
`n` belongs to the certificate at position `i` and carries the receipt for
leaf index `n + i`. -/
theorem persist_tx_loop_get (tree : MerkleTree) (readFile : String → Json)
    (tx_id : String) :
    ∀ (certs : List (String × CertificateMetadata)) (n i : Nat)
      (h : i < certs.length),
      (persist_tx_loop tree readFile tx_id n certs).get? i =
        some { uid := (certs.get ⟨i, h⟩).1,
               receipt := tree.make_receipt (n + i) tx_id,
               receipt_file_name := (certs.get ⟨i, h⟩).2.receipt_file_name,
               receipt_json := (tree.make_receipt (n + i) tx_id).toJson,
               blockchain_cert_file_name :=
                 (certs.get ⟨i, h⟩).2.blockchain_cert_file_name,
               blockchain_cert := Json.obj
                 [("@context", Json.str "https://w3id.org/blockcerts/v1"),
                  ("type", Json.str "BlockchainCertificate"),
                  ("document", readFile (certs.get ⟨i, h⟩).2.signed_cert_file_name),
                  ("receipt", (tree.make_receipt (n + i) tx_id).toJson)] }
  | (uid, m) :: rest, n, 0, h => by
      simp [persist_tx_loop]
  | (uid, m) :: rest, n, i + 1, h => by
      have hrest : i < rest.length := by
        simpa using Nat.lt_of_succ_lt_succ h
      have ih := persist_tx_loop_get tree readFile tx_id rest (n + 1) i hrest
      simp only [persist_tx_loop, List.get?_cons_succ, List.get_cons_succ, ih,
        Nat.add_succ, Nat.succ_add]

/-- Claim C1: receipt emission preserves leaf order: the artifact at
position `i` of `persist_tx`'s iteration pairs the credential at position
`i` of the batch iteration order (the order the leaves were added in) with
the receipt made from leaf index `i` and the broadcast transaction id, for
every `i` below the batch size. -/
theorem persist_tx_order :
    ∀ (s : BatchIssuerState) (readFile : String → Json) (tx_id : String) (i : Nat)
      (h : i < s.certificates_to_issue.length),
      (persist_tx s readFile tx_id).length = s.certificates_to_issue.length
      ∧ ∃ rec, (persist_tx s readFile tx_id).get? i = some rec
          ∧ rec.uid = (s.certificates_to_issue.get ⟨i, h⟩).1
          ∧ rec.receipt = s.tree.make_receipt i tx_id
          ∧ rec.receipt.tx_id = tx_id := by
  intro s readFile tx_id i h
  constructor
  · exact persist_tx_loop_length s.tree readFile tx_id 0 s.certificates_to_issue
  · have hg := persist_tx_loop_get s.tree readFile tx_id s.certificates_to_issue 0 i h
    rw [Nat.zero_add] at hg
    exact ⟨_, hg, rfl, rfl, rfl⟩

/-- Witness for C1 on a concrete one-credential batch. -/
theorem persist_tx_order_witness :
    (persist_tx exampleFinalState (fun _ => Json.null) "txid1").length
        = exampleFinalState.certificates_to_issue.length
    ∧ ∃ rec, (persist_tx exampleFinalState (fun _ => Json.null) "txid1").get? 0 = some rec
        ∧ rec.uid = (exampleFinalState.certificates_to_issue.get ⟨0, by decide⟩).1
        ∧ rec.receipt = exampleFinalState.tree.make_receipt 0 "txid1"
        ∧ rec.receipt.tx_id = "txid1" :=
  persist_tx_order exampleFinalState (fun _ => Json.null) "txid1" 0 (by decide)

/-- Claim C8: every persisted combined artifact is a JSON object with
exactly the fields `@context` (the fixed URI), `type`
(`BlockchainCertificate`), `document` (the credential JSON read back from
its signed-certificate file) and `receipt` (that credential's receipt),
written to the credential's blockchain-certificate file. -/
theorem blockchain_cert_fields :
    ∀ (s : BatchIssuerState) (readFile : String → Json) (tx_id : String) (i : Nat)
      (h : i < s.certificates_to_issue.length),
      ∃ rec, (persist_tx s readFile tx_id).get? i = some rec
        ∧ rec.blockchain_cert = Json.obj
            [("@context", Json.str "https://w3id.org/blockcerts/v1"),
             ("type", Json.str "BlockchainCertificate"),
             ("document",
               readFile (s.certificates_to_issue.get ⟨i, h⟩).2.signed_cert_file_name),
             ("receipt", Receipt.toJson (s.tree.make_receipt i tx_id))]
        ∧ rec.blockchain_cert_file_name =
            (s.certificates_to_issue.get ⟨i, h⟩).2.blockchain_cert_file_name
        ∧ rec.receipt_json = Receipt.toJson (s.tree.make_receipt i tx_id) := by
  intro s readFile tx_id i h
  have hg := persist_tx_loop_get s.tree readFile tx_id s.certificates_to_issue 0 i h
  rw [Nat.zero_add] at hg
  exact ⟨_, hg, rfl, rfl, rfl⟩

/-- Witness for C8 on a concrete one-credential batch. -/
theorem blockchain_cert_fields_witness :
    ∃ rec, (persist_tx exampleFinalState (fun _ => Json.str "doc1") "txid1").get? 0
        = some rec
      ∧ rec.blockchain_cert = Json.obj
          [("@context", Json.str "https://w3id.org/blockcerts/v1"),
           ("type", Json.str "BlockchainCertificate"),
           ("document", (fun _ => Json.str "doc1")
             (exampleFinalState.certificates_to_issue.get ⟨0, by decide⟩).2.signed_cert_file_name),
           ("receipt", Receipt.toJson (exampleFinalState.tree.make_receipt 0 "txid1"))]
      ∧ rec.blockchain_cert_file_name =
          (exampleFinalState.certificates_to_issue.get ⟨0, by decide⟩).2.blockchain_cert_file_name
      ∧ rec.receipt_json = Receipt.toJson (exampleFinalState.tree.make_receipt 0 "txid1") :=
  blockchain_cert_fields exampleFinalState (fun _ => Json.str "doc1") "txid1" 0 (by decide)

end BatchIssuer
